import Mathlib

/-
Verification of the process-supervision and log-streaming core of app.py
(the "ujala" script runner).

Shallow embedding notes:
* Python dicts `running_processes` and `script_logs` are modelled as total
  functions `Nat → Option RunInfo` and `Nat → List LogEntry` (a missing key
  maps to `none` / `[]`, matching `dict.get(sid)` and
  `script_logs.get(sid, [])` / `setdefault(sid, [])` semantics).
* `socketio.emit` calls are recorded, in program order, in the `emitted`
  event list of the state.
* The wall-clock timestamp string built by `datetime.now().strftime`
  is modelled by a logical `clock : Nat` that advances by one per log entry;
  no claim depends on the timestamp format.
* A child process is abstracted by `ProcBehavior`: whether `subprocess.Popen`
  succeeds, the (already newline-stripped) lines produced on each stream, and
  the exit code returned by `proc.wait()`.
* The supervisor thread of `run_python_script` is split into its phases
  (`run_pre_wait`, the two stream readers, `run_post_wait`) so that the
  interleaving of an explicit `/stop` request with the wait task can be
  expressed; `run_python_script` itself composes the phases in the
  sequential schedule in which both readers drain before `proc.wait()`
  returns.
-/

set_option maxHeartbeats 1000000

namespace Ujala

/-- A log entry as built by `log` inside `run_python_script` (app.py lines
56-59): `{"timestamp": ..., "message": msg, "type": typ}`. -/
structure LogEntry where
  timestamp : Nat
  message : String
  type : String
  deriving DecidableEq, Repr

/-- One `socketio.emit` call made by the core: `script_log` (line 59),
`script_started` (line 79) or `script_stopped` (lines 101 and 145). -/
inductive Event where
  | script_log (script_id : Nat) (entry : LogEntry)
  | script_started (script_id : Nat)
  | script_stopped (script_id : Nat)
  deriving DecidableEq, Repr

/-- The value stored in `running_processes[script_id]` (app.py lines 73-78);
the live `process` handle itself is abstracted away (the child's behaviour is
a `ProcBehavior` parameter of the run function). -/
structure RunInfo where
  name : String
  path : String
  start_time : Nat
  deriving DecidableEq, Repr

/-- The global mutable state of app.py that the claims are about:
`running_processes`, `script_logs`, the stream of emitted socket events, the
logical clock, and `settings["recent"]` (the only piece of `settings` touched
by `api_run`). -/
structure AppState where
  running_processes : Nat → Option RunInfo
  script_logs : Nat → List LogEntry
  emitted : List Event
  clock : Nat
  recent : List String

/-- Pointwise update of a map, modelling `d[k] = v` (and `d.pop(k, None)`
when `v = none`). -/
def upd {α : Type} (m : Nat → α) (k : Nat) (v : α) : Nat → α :=
  fun j => if j = k then v else m j

/-- The initial state: empty registries, no events emitted. -/
def initState : AppState :=
  { running_processes := fun _ => none
    script_logs := fun _ => []
    emitted := []
    clock := 0
    recent := [] }

/-- The nested `log(msg, typ)` helper of `run_python_script` (app.py lines
56-59): build an entry, append it to this script's log buffer, and emit a
`script_log` event. -/
def logEmit (script_id : Nat) (msg : String) (typ : String) (s : AppState) : AppState :=
  let entry : LogEntry := { timestamp := s.clock, message := msg, type := typ }
  { s with
    script_logs := upd s.script_logs script_id (s.script_logs script_id ++ [entry])
    emitted := s.emitted ++ [Event.script_log script_id entry]
    clock := s.clock + 1 }

/-- Abstraction of one child process: whether `subprocess.Popen` succeeds
(app.py lines 63-71), the text of the exception when it does not, the
stripped lines each stream reader sees, and the exit code `proc.wait()`
returns.  `exit_code` is an `Int` because a terminated process reports a
negative code. -/
structure ProcBehavior where
  spawn_ok : Bool
  spawn_err : String
  stdout_lines : List String
  stderr_lines : List String
  exit_code : Int
  deriving DecidableEq, Repr

/-- Common body of `read_stdout` / `read_stderr` (app.py lines 81-89): for
each line, log it with the given message prefix and severity tag. -/
def readStream (script_id : Nat) (pre typ : String) (lines : List String) (s : AppState) : AppState :=
  match lines with
  | [] => s
  | line :: rest => readStream script_id pre typ rest (logEmit script_id (pre ++ line) typ s)

/-- `read_stdout` (app.py lines 81-84): each line is logged as
`log(f"[OUT] {line.strip()}")`, i.e. with the DEFAULT severity tag `"info"`. -/
def read_stdout (script_id : Nat) (lines : List String) (s : AppState) : AppState :=
  readStream script_id "[OUT] " "info" lines s

/-- `read_stderr` (app.py lines 86-89): each line is logged as
`log(f"[ERR] {line.strip()}", "error")`. -/
def read_stderr (script_id : Nat) (lines : List String) (s : AppState) : AppState :=
  readStream script_id "[ERR] " "error" lines s

/-- The `finally` block of `run_python_script` (app.py lines 99-101):
`running_processes.pop(script_id, None)` then emit `script_stopped`. -/
def finallyBlock (script_id : Nat) (s : AppState) : AppState :=
  let s2 := { s with running_processes := upd s.running_processes script_id none }
  { s2 with emitted := s2.emitted ++ [Event.script_stopped script_id] }

/-- The part of `run_python_script` executed before the thread blocks in
`proc.wait()`, for a successful spawn (app.py lines 61-79): the initial
"Starting" log entry, registration in `running_processes`, and the
`script_started` emission. -/
def run_pre_wait (script_id : Nat) (script_path script_name : String) (s : AppState) : AppState :=
  let s1 := logEmit script_id ("🚀 Starting " ++ script_name ++ "...") "info" s
  let s2 := { s1 with
    running_processes :=
      upd s1.running_processes script_id
        (some { name := script_name, path := script_path, start_time := s1.clock }) }
  { s2 with emitted := s2.emitted ++ [Event.script_started script_id] }

/-- The summary log entry appended when `proc.wait()` returns `ret`
(app.py lines 95-96). -/
def summaryEntry (ret : Int) (c : Nat) : LogEntry :=
  { timestamp := c
    message := if ret = 0 then "✅ Completed successfully!" else "❌ Exited with code " ++ toString ret
    type := if ret = 0 then "success" else "error" }

/-- The initial log entry appended at the top of `run_python_script`
(app.py line 61). -/
def startEntry (script_name : String) (c : Nat) : LogEntry :=
  { timestamp := c, message := "🚀 Starting " ++ script_name ++ "...", type := "info" }

/-- The part of `run_python_script` executed once `proc.wait()` returns
(app.py lines 94-101): the summary log entry, then the `finally` block. -/
def run_post_wait (script_id : Nat) (ret : Int) (s : AppState) : AppState :=
  finallyBlock script_id
    (logEmit script_id
      (if ret = 0 then "✅ Completed successfully!" else "❌ Exited with code " ++ toString ret)
      (if ret = 0 then "success" else "error") s)

/-- `run_python_script` (app.py lines 53-101), in the sequential schedule in
which the two stream readers drain their streams between `script_started` and
the return of `proc.wait()`.  When `Popen` raises (`spawn_ok = false`), the
`except` branch logs the error and the `finally` block still runs
(lines 97-101). -/
def run_python_script (script_id : Nat) (script_path script_name : String)
    (b : ProcBehavior) (s : AppState) : AppState :=
  if b.spawn_ok then
    run_post_wait script_id b.exit_code
      (read_stderr script_id b.stderr_lines
        (read_stdout script_id b.stdout_lines
          (run_pre_wait script_id script_path script_name s)))
  else
    finallyBlock script_id
      (logEmit script_id ("❌ Error: " ++ b.spawn_err) "error"
        (logEmit script_id ("🚀 Starting " ++ script_name ++ "...") "info" s))

/-- A script descriptor as consumed by `api_run` (the fields of the dicts
built by `discover_python_files` / upload that `api_run` reads). -/
structure Script where
  id : Nat
  name : String
  path : String
  deriving DecidableEq, Repr

/-- A run scheduled by `api_run`'s `threading.Thread(...).start()`
(app.py line 130): the thread body's arguments.  Returning the job instead of
running it captures that `run_python_script` executes asynchronously, after
`api_run` has already responded. -/
structure RunJob where
  script_id : Nat
  path : String
  name : String
  deriving DecidableEq, Repr

/-- An HTTP response of the API endpoints: `{"status": "success"}` or
`({"error": msg}, code)`. -/
inductive ApiResp where
  | ok
  | err (msg : String) (code : Nat)
  deriving DecidableEq, Repr

/-- Python's `list.remove(x)` preceded by the membership guard
(app.py lines 124-125): drop the first occurrence, no-op when absent. -/
def removeFirst (x : String) : List String → List String
  | [] => []
  | y :: ys => if y = x then ys else y :: removeFirst x ys

/-- `api_run` (app.py lines 114-131).  `all_scripts` is the concatenation
`discover_python_files() + settings["scripts"]`; `path_exists` models
`Path(...).exists()`.  The endpoint only CHECKS `sid in running_processes`
(line 120); the insertion into `running_processes` happens later, inside the
spawned thread (line 73), which is returned here as a pending `RunJob`. -/
def api_run (all_scripts : List Script) (path_exists : String → Bool) (sid : Nat)
    (s : AppState) : ApiResp × AppState × Option RunJob :=
  match all_scripts.find? (fun sc => sc.id == sid) with
  | none => (ApiResp.err "not found" 404, s, none)
  | some sc =>
    if path_exists sc.path = false then
      (ApiResp.err "not found" 404, s, none)
    else if (s.running_processes sid).isSome then
      (ApiResp.err "already running" 400, s, none)
    else
      let recent2 := (sc.name :: removeFirst sc.name s.recent).take 10
      (ApiResp.ok, { s with recent := recent2 }, some { script_id := sid, path := sc.path, name := sc.name })

/-- The actions `api_stop` performs on the child process handle, in order:
`proc.terminate()`, `proc.wait(timeout=5)`, and `proc.kill()` after a
`TimeoutExpired`. -/
inductive ProcAction where
  | terminate
  | wait (timeout : Nat)
  | kill
  deriving DecidableEq, Repr

/-- `api_stop` (app.py lines 133-148).  `exits_in_time` abstracts whether the
process exits within the 5-second `proc.wait(timeout=5)` window; when it does
not, `proc.kill()` is issued.  Either way the entry is popped from
`running_processes` and `script_stopped` is emitted (lines 144-145). -/
def api_stop (exits_in_time : Bool) (sid : Nat) (s : AppState) :
    ApiResp × AppState × List ProcAction :=
  match s.running_processes sid with
  | none => (ApiResp.err "not running" 400, s, [])
  | some _ =>
    let acts := [ProcAction.terminate, ProcAction.wait 5] ++
      (if exits_in_time then [] else [ProcAction.kill])
    let s2 := { s with
      running_processes := upd s.running_processes sid none
      emitted := s.emitted ++ [Event.script_stopped sid] }
    (ApiResp.ok, s2, acts)

/-- `api_logs` (app.py lines 150-152): `script_logs.get(sid, [])`. -/
def api_logs (sid : Nat) (s : AppState) : List LogEntry :=
  s.script_logs sid

/-- Whether `sid` appears in the `"running"` key list that `api_scripts`
returns (`list(running_processes.keys())`, app.py line 111): with the
function model of the dict, key membership is `isSome`. -/
def list_running_mem (s : AppState) (sid : Nat) : Bool :=
  (s.running_processes sid).isSome

/-- A file met by the `os.walk` of `discover_python_files` (app.py lines
38-41): its full path `str(Path(root) / file)` and its stem. -/
structure FsFile where
  path : String
  stem : String
  deriving DecidableEq, Repr

/-- The identifier derivation of `discover_python_files` (app.py line 43):
`abs(hash(str(fp))) % 10**8`.  Python's string hash is randomized per process
but fixed within one process lifetime, so it is modelled as an arbitrary
function `hashFn : String → Int` that is the same for every discovery pass of
one process. -/
def scriptId (hashFn : String → Int) (p : String) : Nat :=
  (hashFn p).natAbs % 10 ^ 8

/-- `file.endswith('.py')` (app.py line 40), written over the character data
of the string. -/
def endsWithPy (nm : String) : Bool :=
  ".py".data.isSuffixOf nm.data

/-- `discover_python_files` (app.py lines 34-51), restricted to the fields
`api_run` consumes.  `files` is the sequence of files produced by walking the
monitored folders. -/
def discover_python_files (hashFn : String → Int) (files : List FsFile) : List Script :=
  (files.filter (fun f => endsWithPy f.path)).map
    (fun f => { id := scriptId hashFn f.path, name := f.stem, path := f.path })

/-! ### Characterization lemmas -/

/-- The log entries a stream reader appends: one per line, message prefixed,
all with the same severity tag, timestamps consecutive from `c`. -/
def streamEntries (pre typ : String) (lines : List String) (c : Nat) : List LogEntry :=
  match lines with
  | [] => []
  | l :: ls => { timestamp := c, message := pre ++ l, type := typ } :: streamEntries pre typ ls (c + 1)

lemma logEmit_logs_self (sid : Nat) (m t : String) (s : AppState) :
    (logEmit sid m t s).script_logs sid =
      s.script_logs sid ++ [{ timestamp := s.clock, message := m, type := t }] := by
  simp [logEmit, upd]

lemma logEmit_logs_other (sid j : Nat) (m t : String) (s : AppState) (h : j ≠ sid) :
    (logEmit sid m t s).script_logs j = s.script_logs j := by
  simp [logEmit, upd, h]

lemma logEmit_emitted (sid : Nat) (m t : String) (s : AppState) :
    (logEmit sid m t s).emitted =
      s.emitted ++ [Event.script_log sid { timestamp := s.clock, message := m, type := t }] := rfl

lemma logEmit_clock (sid : Nat) (m t : String) (s : AppState) :
    (logEmit sid m t s).clock = s.clock + 1 := rfl

lemma logEmit_running (sid : Nat) (m t : String) (s : AppState) :
    (logEmit sid m t s).running_processes = s.running_processes := rfl

lemma readStream_running (sid : Nat) (pre typ : String) (lines : List String) :
    ∀ s : AppState, (readStream sid pre typ lines s).running_processes = s.running_processes := by
  induction lines with
  | nil => intro s; simp [readStream]
  | cons l ls ih => intro s; simp [readStream, ih, logEmit]

lemma readStream_clock (sid : Nat) (pre typ : String) (lines : List String) :
    ∀ s : AppState, (readStream sid pre typ lines s).clock = s.clock + lines.length := by
  induction lines with
  | nil => intro s; simp [readStream]
  | cons l ls ih =>
    intro s
    simp [readStream, ih, logEmit]
    omega

lemma readStream_logs_self (sid : Nat) (pre typ : String) (lines : List String) :
    ∀ s : AppState, (readStream sid pre typ lines s).script_logs sid =
      s.script_logs sid ++ streamEntries pre typ lines s.clock := by
  induction lines with
  | nil => intro s; simp [readStream, streamEntries]
  | cons l ls ih =>
    intro s
    simp [readStream, streamEntries, ih, logEmit, upd]

lemma readStream_logs_other (sid j : Nat) (pre typ : String) (lines : List String) (h : j ≠ sid) :
    ∀ s : AppState, (readStream sid pre typ lines s).script_logs j = s.script_logs j := by
  induction lines with
  | nil => intro s; simp [readStream]
  | cons l ls ih =>
    intro s
    simp [readStream, ih, logEmit, upd, h]

lemma readStream_emitted (sid : Nat) (pre typ : String) (lines : List String) :
    ∀ s : AppState, (readStream sid pre typ lines s).emitted =
      s.emitted ++ (streamEntries pre typ lines s.clock).map (Event.script_log sid) := by
  induction lines with
  | nil => intro s; simp [readStream, streamEntries]
  | cons l ls ih =>
    intro s
    simp [readStream, streamEntries, ih, logEmit]

lemma run_pre_wait_logs_self (sid : Nat) (p n : String) (s : AppState) :
    (run_pre_wait sid p n s).script_logs sid = s.script_logs sid ++ [startEntry n s.clock] := by
  simp [run_pre_wait, logEmit, upd, startEntry]

lemma run_pre_wait_logs_other (sid j : Nat) (p n : String) (s : AppState) (h : j ≠ sid) :
    (run_pre_wait sid p n s).script_logs j = s.script_logs j := by
  simp [run_pre_wait, logEmit, upd, h]

lemma run_pre_wait_emitted (sid : Nat) (p n : String) (s : AppState) :
    (run_pre_wait sid p n s).emitted =
      s.emitted ++ [Event.script_log sid (startEntry n s.clock), Event.script_started sid] := by
  simp [run_pre_wait, logEmit, startEntry]

lemma run_pre_wait_clock (sid : Nat) (p n : String) (s : AppState) :
    (run_pre_wait sid p n s).clock = s.clock + 1 := rfl

lemma run_pre_wait_running_self (sid : Nat) (p n : String) (s : AppState) :
    (run_pre_wait sid p n s).running_processes sid =
      some { name := n, path := p, start_time := s.clock + 1 } := by
  simp [run_pre_wait, logEmit, upd]

lemma run_pre_wait_running_other (sid j : Nat) (p n : String) (s : AppState) (h : j ≠ sid) :
    (run_pre_wait sid p n s).running_processes j = s.running_processes j := by
  simp [run_pre_wait, logEmit, upd, h]

lemma run_post_wait_logs_self (sid : Nat) (ret : Int) (s : AppState) :
    (run_post_wait sid ret s).script_logs sid =
      s.script_logs sid ++ [summaryEntry ret s.clock] := by
  simp [run_post_wait, finallyBlock, logEmit, upd, summaryEntry]

lemma run_post_wait_logs_other (sid j : Nat) (ret : Int) (s : AppState) (h : j ≠ sid) :
    (run_post_wait sid ret s).script_logs j = s.script_logs j := by
  simp [run_post_wait, finallyBlock, logEmit, upd, h]

lemma run_post_wait_emitted (sid : Nat) (ret : Int) (s : AppState) :
    (run_post_wait sid ret s).emitted =
      s.emitted ++ [Event.script_log sid (summaryEntry ret s.clock), Event.script_stopped sid] := by
  simp [run_post_wait, finallyBlock, logEmit, summaryEntry]

lemma run_post_wait_running_self (sid : Nat) (ret : Int) (s : AppState) :
    (run_post_wait sid ret s).running_processes sid = none := by
  simp [run_post_wait, finallyBlock, logEmit, upd]

lemma run_post_wait_running_other (sid j : Nat) (ret : Int) (s : AppState) (h : j ≠ sid) :
    (run_post_wait sid ret s).running_processes j = s.running_processes j := by
  simp [run_post_wait, finallyBlock, logEmit, upd, h]

/-- The log entries one execution of `run_python_script` appends to its
script's buffer, as a function of the behaviour and the starting clock. -/
def runLogEntries (n : String) (b : ProcBehavior) (c : Nat) : List LogEntry :=
  if b.spawn_ok then
    [startEntry n c] ++
      streamEntries "[OUT] " "info" b.stdout_lines (c + 1) ++
      streamEntries "[ERR] " "error" b.stderr_lines (c + 1 + b.stdout_lines.length) ++
      [summaryEntry b.exit_code (c + 1 + b.stdout_lines.length + b.stderr_lines.length)]
  else
    [startEntry n c, { timestamp := c + 1, message := "❌ Error: " ++ b.spawn_err, type := "error" }]

/-- The events one execution of `run_python_script` emits, in order. -/
def runEvents (sid : Nat) (n : String) (b : ProcBehavior) (c : Nat) : List Event :=
  if b.spawn_ok then
    [Event.script_log sid (startEntry n c), Event.script_started sid] ++
      (streamEntries "[OUT] " "info" b.stdout_lines (c + 1)).map (Event.script_log sid) ++
      (streamEntries "[ERR] " "error" b.stderr_lines (c + 1 + b.stdout_lines.length)).map
        (Event.script_log sid) ++
      [Event.script_log sid
        (summaryEntry b.exit_code (c + 1 + b.stdout_lines.length + b.stderr_lines.length)),
       Event.script_stopped sid]
  else
    [Event.script_log sid (startEntry n c),
     Event.script_log sid { timestamp := c + 1, message := "❌ Error: " ++ b.spawn_err, type := "error" },
     Event.script_stopped sid]

lemma run_logs_self (sid : Nat) (p n : String) (b : ProcBehavior) (s : AppState) :
    (run_python_script sid p n b s).script_logs sid =
      s.script_logs sid ++ runLogEntries n b s.clock := by
  by_cases h : b.spawn_ok = true
  · simp only [run_python_script, h, if_true, read_stdout, read_stderr, runLogEntries,
      run_post_wait_logs_self, readStream_logs_self, readStream_clock, run_pre_wait_logs_self,
      run_pre_wait_clock, List.append_assoc, List.singleton_append, List.cons_append,
      List.nil_append]
  · simp only [Bool.not_eq_true] at h
    simp only [run_python_script, h, Bool.false_eq_true, if_false, runLogEntries,
      finallyBlock, logEmit, upd, startEntry]
    simp [List.append_assoc]

lemma run_logs_other (sid j : Nat) (p n : String) (b : ProcBehavior) (s : AppState)
    (h : j ≠ sid) :
    (run_python_script sid p n b s).script_logs j = s.script_logs j := by
  by_cases hb : b.spawn_ok = true
  · simp only [run_python_script, hb, if_true, read_stdout, read_stderr,
      run_post_wait_logs_other sid j _ _ h, readStream_logs_other sid j _ _ _ h,
      run_pre_wait_logs_other sid j _ _ _ h]
  · simp only [Bool.not_eq_true] at hb
    simp [run_python_script, hb, finallyBlock, logEmit, upd, h]

lemma run_emitted (sid : Nat) (p n : String) (b : ProcBehavior) (s : AppState) :
    (run_python_script sid p n b s).emitted = s.emitted ++ runEvents sid n b s.clock := by
  by_cases h : b.spawn_ok = true
  · simp only [run_python_script, h, if_true, read_stdout, read_stderr, runEvents,
      run_post_wait_emitted, readStream_emitted, readStream_clock, run_pre_wait_emitted,
      run_pre_wait_clock, List.append_assoc, List.singleton_append, List.cons_append,
      List.nil_append]
  · simp only [Bool.not_eq_true] at h
    simp only [run_python_script, h, Bool.false_eq_true, if_false, runEvents,
      finallyBlock, logEmit, startEntry]
    simp [List.append_assoc]

lemma run_running_self (sid : Nat) (p n : String) (b : ProcBehavior) (s : AppState) :
    (run_python_script sid p n b s).running_processes sid = none := by
  by_cases h : b.spawn_ok = true
  · simp only [run_python_script, h, if_true, read_stdout, read_stderr,
      run_post_wait_running_self]
  · simp only [Bool.not_eq_true] at h
    simp [run_python_script, h, finallyBlock, logEmit, upd]

lemma run_running_other (sid j : Nat) (p n : String) (b : ProcBehavior) (s : AppState)
    (h : j ≠ sid) :
    (run_python_script sid p n b s).running_processes j = s.running_processes j := by
  by_cases hb : b.spawn_ok = true
  · simp only [run_python_script, hb, if_true, read_stdout, read_stderr,
      run_post_wait_running_other sid j _ _ h, readStream_running,
      run_pre_wait_running_other sid j _ _ _ h]
  · simp only [Bool.not_eq_true] at hb
    simp [run_python_script, hb, finallyBlock, logEmit, upd, h]

/-! ### Event counting helpers -/

/-- Number of `script_stopped sid` events in an emission history. -/
def stoppedCount (sid : Nat) (evs : List Event) : Nat :=
  (evs.filter (fun e => e == Event.script_stopped sid)).length

/-- Number of `script_started sid` events in an emission history. -/
def startedCount (sid : Nat) (evs : List Event) : Nat :=
  (evs.filter (fun e => e == Event.script_started sid)).length

lemma stoppedCount_append (sid : Nat) (l1 l2 : List Event) :
    stoppedCount sid (l1 ++ l2) = stoppedCount sid l1 + stoppedCount sid l2 := by
  simp [stoppedCount, List.filter_append]

lemma startedCount_append (sid : Nat) (l1 l2 : List Event) :
    startedCount sid (l1 ++ l2) = startedCount sid l1 + startedCount sid l2 := by
  simp [startedCount, List.filter_append]

lemma map_log_filter_stopped (sid sid2 : Nat) (entries : List LogEntry) :
    (entries.map (Event.script_log sid)).filter (fun e => e == Event.script_stopped sid2) = [] := by
  induction entries with
  | nil => rfl
  | cons a l ih => simp [List.filter_cons, ih]

lemma map_log_filter_started (sid sid2 : Nat) (entries : List LogEntry) :
    (entries.map (Event.script_log sid)).filter (fun e => e == Event.script_started sid2) = [] := by
  induction entries with
  | nil => rfl
  | cons a l ih => simp [List.filter_cons, ih]

lemma stoppedCount_runEvents (sid : Nat) (n : String) (b : ProcBehavior) (c : Nat) :
    stoppedCount sid (runEvents sid n b c) = 1 := by
  by_cases h : b.spawn_ok = true
  · simp [runEvents, h, stoppedCount, List.filter_append, map_log_filter_stopped]
  · simp only [Bool.not_eq_true] at h
    simp [runEvents, h, stoppedCount]

lemma startedCount_runEvents (sid : Nat) (n : String) (b : ProcBehavior) (c : Nat) :
    startedCount sid (runEvents sid n b c) = if b.spawn_ok then 1 else 0 := by
  by_cases h : b.spawn_ok = true
  · simp [runEvents, h, startedCount, List.filter_append, map_log_filter_started]
  · simp only [Bool.not_eq_true] at h
    simp [runEvents, h, startedCount]

lemma streamEntries_mem (pre typ : String) (lines : List String) (c : Nat) (e : LogEntry)
    (he : e ∈ streamEntries pre typ lines c) :
    e.type = typ ∧ ∃ l, l ∈ lines ∧ e.message = pre ++ l := by
  induction lines generalizing c with
  | nil => simp [streamEntries] at he
  | cons l ls ih =>
    simp only [streamEntries, List.mem_cons] at he
    rcases he with rfl | he
    · exact ⟨rfl, l, List.mem_cons_self l ls, rfl⟩
    · obtain ⟨ht, l2, hl2, hm⟩ := ih (c + 1) he
      exact ⟨ht, l2, List.mem_cons_of_mem l hl2, hm⟩

lemma runLogEntries_types (n : String) (b : ProcBehavior) (c : Nat) (e : LogEntry)
    (he : e ∈ runLogEntries n b c) :
    e.type = "info" ∨ e.type = "error" ∨ e.type = "success" := by
  by_cases hb : b.spawn_ok = true
  · simp only [runLogEntries, hb, if_true, List.append_assoc, List.mem_append,
      List.mem_singleton] at he
    rcases he with he | he | he | he
    · subst he
      exact Or.inl rfl
    · exact Or.inl (streamEntries_mem _ _ _ _ _ he).1
    · exact Or.inr (Or.inl (streamEntries_mem _ _ _ _ _ he).1)
    · subst he
      by_cases hr : b.exit_code = 0
      · exact Or.inr (Or.inr (by simp [summaryEntry, hr]))
      · exact Or.inr (Or.inl (by simp [summaryEntry, hr]))
  · simp only [Bool.not_eq_true] at hb
    simp only [runLogEntries, hb, Bool.false_eq_true, if_false, List.mem_cons,
      List.mem_singleton, List.not_mem_nil] at he
    rcases he with rfl | rfl | h
    · exact Or.inl rfl
    · exact Or.inr (Or.inl rfl)
    · exact absurd h (by simp)

/-! ### Shared facts about the API endpoints -/

lemma api_run_ok (all_scripts : List Script) (pe : String → Bool) (sid : Nat)
    (s : AppState) (sc : Script) (hfind : all_scripts.find? (fun x => x.id == sid) = some sc)
    (hpe : pe sc.path = true) (hrun : s.running_processes sid = none) :
    (api_run all_scripts pe sid s).1 = ApiResp.ok := by
  simp [api_run, hfind, hpe, hrun]

lemma api_run_already (all_scripts : List Script) (pe : String → Bool) (sid : Nat)
    (s : AppState) (sc : Script) (hfind : all_scripts.find? (fun x => x.id == sid) = some sc)
    (hpe : pe sc.path = true) (hrun : (s.running_processes sid).isSome = true) :
    (api_run all_scripts pe sid s).1 = ApiResp.err "already running" 400 := by
  simp [api_run, hfind, hpe, hrun]

/-! ### Shared concrete fixtures -/

/-- A one-script catalogue, as `discover_python_files() + settings["scripts"]`
would produce it for a single monitored script. -/
def demoScripts : List Script := [{ id := 7, name := "a", path := "/tmp/a.py" }]

/-- A filesystem on which every path exists. -/
def allPaths : String → Bool := fun _ => true

/-- A state in which script 7 is registered as running. -/
def regState : AppState :=
  { initState with
    running_processes :=
      upd initState.running_processes 7 (some { name := "a", path := "/tmp/a.py", start_time := 0 }) }

/-! ### Claim C1 -/

/-- The stop-race scenario of claim C1: the supervisor thread executes up to
`proc.wait()` (initial log, `Popen`, registration, `script_started`). -/
def c1_state1 : AppState := run_pre_wait 7 "/tmp/a.py" "a" initState

/-- An explicit `/stop` request then lands: `api_stop` terminates the child,
which exits within the 5-second window, and `api_stop` pops the registry entry
and emits `script_stopped` (app.py lines 144-145). -/
def c1_state2 : AppState := (api_stop true 7 c1_state1).2.1

/-- Finally the supervisor's `proc.wait()` returns (SIGTERM, exit code -15),
so lines 94-101 run: the summary entry, then the `finally` block, which emits
`script_stopped` a SECOND time (app.py line 101). -/
def c1_final : AppState := run_post_wait 7 (-15) c1_state2

/-- Claim C1 is false as stated: when an explicit stop request is served while
the wait task is blocked in `proc.wait()`, the run observes TWO
`script_stopped` events — one from `api_stop` (line 145) and one from the
supervisor's unconditional `finally` block (line 101).  The scenario starts
from the empty state, so both events belong to this single run. -/
theorem C1_counterexample : stoppedCount 7 c1_final.emitted = 2 := by decide

/-- Claim C1 amended: the supervisor itself publishes `script_stopped` exactly
once per execution (whether the spawn succeeded or not, and for every exit
code), and a successful `api_stop` publishes exactly one more; hence a run
terminated by an explicit stop observes two `stopped` events, not one. -/
theorem C1_amended :
    (∀ (sid : Nat) (p n : String) (b : ProcBehavior) (s : AppState),
       stoppedCount sid (run_python_script sid p n b s).emitted =
         stoppedCount sid s.emitted + 1) ∧
    (∀ (g : Bool) (sid : Nat) (s : AppState),
       (s.running_processes sid).isSome = true →
       stoppedCount sid ((api_stop g sid s).2.1).emitted = stoppedCount sid s.emitted + 1) := by
  constructor
  · intro sid p n b s
    rw [run_emitted, stoppedCount_append, stoppedCount_runEvents]
  · intro g sid s h
    obtain ⟨info, hinfo⟩ := Option.isSome_iff_exists.mp h
    simp [api_stop, hinfo, stoppedCount, List.filter_append]

/-- Witness for `C1_amended` at a concrete input: script 7 is registered in
`c1_state1`, and stopping it adds exactly one `script_stopped` event. -/
theorem C1_amended_witness :
    (c1_state1.running_processes 7).isSome = true ∧
    stoppedCount 7 ((api_stop true 7 c1_state1).2.1).emitted =
      stoppedCount 7 c1_state1.emitted + 1 :=
  ⟨by decide, C1_amended.2 true 7 c1_state1 (by decide)⟩

/-! ### Claim C2 -/

/-- Claim C2 is false as stated: the presence check (app.py line 120) and the
registration (line 73) are not one atomic step — the registration happens in
the spawned thread, after `api_run` has returned.  Concretely: two start
requests for script 7 in immediate succession, with the first request's thread
not yet scheduled, BOTH respond `{"status": "success"}`; neither is rejected
with "already running". -/
theorem C2_counterexample :
    (api_run demoScripts allPaths 7 initState).1 = ApiResp.ok ∧
    (api_run demoScripts allPaths 7 ((api_run demoScripts allPaths 7 initState).2.1)).1 =
      ApiResp.ok := by
  decide

/-- Claim C2 amended: `api_run` rejects a duplicate start with
"already running" only once the first run's registration (performed by the
spawned `run_python_script` thread, line 73) has actually been applied to
`running_processes`; the check-then-spawn is not atomic, so two start
requests that both pass the check before either thread registers both
succeed. -/
theorem C2_amended : ∀ (all_scripts : List Script) (pe : String → Bool) (sid : Nat)
    (s : AppState) (sc : Script),
    all_scripts.find? (fun x => x.id == sid) = some sc →
    pe sc.path = true →
    (s.running_processes sid).isSome = true →
    (api_run all_scripts pe sid s).1 = ApiResp.err "already running" 400 := by
  intro all_scripts pe sid s sc hfind hpe hrun
  exact api_run_already all_scripts pe sid s sc hfind hpe hrun

/-- Witness for `C2_amended`: once script 7 is registered (state `regState`),
a second start request is rejected with "already running". -/
theorem C2_amended_witness :
    demoScripts.find? (fun x => x.id == 7) = some { id := 7, name := "a", path := "/tmp/a.py" } ∧
    allPaths "/tmp/a.py" = true ∧
    (regState.running_processes 7).isSome = true ∧
    (api_run demoScripts allPaths 7 regState).1 = ApiResp.err "already running" 400 :=
  ⟨by decide, rfl, rfl,
    C2_amended demoScripts allPaths 7 regState { id := 7, name := "a", path := "/tmp/a.py" }
      (by decide) rfl rfl⟩

/-! ### Claim C3 -/

/-- A child whose `subprocess.Popen` raises (e.g. permission denied). -/
def c3_behavior : ProcBehavior :=
  { spawn_ok := false, spawn_err := "[Errno 13] Permission denied", stdout_lines := [],
    stderr_lines := [], exit_code := 0 }

/-- The state after `api_run` accepted the request and the spawned thread then
failed to create the process. -/
def c3_after : AppState :=
  run_python_script 7 "/tmp/a.py" "a" c3_behavior ((api_run demoScripts allPaths 7 initState).2.1)

/-- Claim C3 is false as stated: when the child process cannot be created, the
caller of `api_run` has ALREADY received `{"status": "success"}` — `Popen` runs
in the spawned thread (app.py lines 63, 130), so no `SpawnFailure` error is
returned synchronously.  The failure surfaces only as an `error`-tagged log
entry (line 98).  Concretely: the response is `ok` even though the spawn then
fails and is logged. -/
theorem C3_counterexample :
    (api_run demoScripts allPaths 7 initState).1 = ApiResp.ok ∧
    c3_after.script_logs 7 =
      [{ timestamp := 0, message := "🚀 Starting a...", type := "info" },
       { timestamp := 1, message := "❌ Error: [Errno 13] Permission denied", type := "error" }] := by
  constructor
  · decide
  · decide

/-- Claim C3 amended: a spawn failure is never reported to the caller of
`api_run` — the response is `ok` whenever the script is found, its path
exists and it is not already registered, irrespective of whether the spawn
will later succeed.  When the spawn does fail, the supervisor leaves no entry
in `running_processes`, publishes no `script_started` event, records the
failure as an `error`-tagged log entry, and still publishes one
`script_stopped` event from its `finally` block. -/
theorem C3_amended :
    (∀ (all_scripts : List Script) (pe : String → Bool) (sid : Nat) (s : AppState) (sc : Script),
       all_scripts.find? (fun x => x.id == sid) = some sc →
       pe sc.path = true → s.running_processes sid = none →
       (api_run all_scripts pe sid s).1 = ApiResp.ok) ∧
    (∀ (sid : Nat) (p n : String) (b : ProcBehavior) (s : AppState),
       b.spawn_ok = false →
       (run_python_script sid p n b s).running_processes sid = none ∧
       startedCount sid (run_python_script sid p n b s).emitted =
         startedCount sid s.emitted ∧
       stoppedCount sid (run_python_script sid p n b s).emitted =
         stoppedCount sid s.emitted + 1 ∧
       (run_python_script sid p n b s).script_logs sid =
         s.script_logs sid ++
           [startEntry n s.clock,
            { timestamp := s.clock + 1, message := "❌ Error: " ++ b.spawn_err, type := "error" }]) := by
  constructor
  · intro all_scripts pe sid s sc hfind hpe hrun
    exact api_run_ok all_scripts pe sid s sc hfind hpe hrun
  · intro sid p n b s hb
    refine ⟨run_running_self sid p n b s, ?_, ?_, ?_⟩
    · rw [run_emitted, startedCount_append, startedCount_runEvents, hb]
      simp
    · rw [run_emitted, stoppedCount_append, stoppedCount_runEvents]
    · rw [run_logs_self]
      simp [runLogEntries, hb]

/-- Witness for `C3_amended` at a concrete input: the request for script 7 is
accepted, and a spawn failure leaves no registry entry, no `started` event,
one `stopped` event and the two log entries. -/
theorem C3_amended_witness :
    (demoScripts.find? (fun x => x.id == 7) = some { id := 7, name := "a", path := "/tmp/a.py" } ∧
      allPaths "/tmp/a.py" = true ∧
      initState.running_processes 7 = none ∧
      (api_run demoScripts allPaths 7 initState).1 = ApiResp.ok) ∧
    (c3_behavior.spawn_ok = false ∧
      (run_python_script 7 "/tmp/a.py" "a" c3_behavior initState).running_processes 7 = none) :=
  ⟨⟨by decide, rfl, rfl,
      C3_amended.1 demoScripts allPaths 7 initState { id := 7, name := "a", path := "/tmp/a.py" }
        (by decide) rfl rfl⟩,
   ⟨rfl, (C3_amended.2 7 "/tmp/a.py" "a" c3_behavior initState rfl).1⟩⟩

/-! ### Claim C4 -/

/-- Recognizer for a `script_log` event of the given run. -/
def isLogEvent (sid : Nat) : Event → Bool
  | Event.script_log j _ => j == sid
  | _ => false

/-- The ordering property asserted by claim C4: every `log` event of the run
is preceded (strictly earlier in the emission history) by a
`script_started` event of the run. -/
def startedPrecedesLogs (sid : Nat) (evs : List Event) : Prop :=
  ∀ i : Fin evs.length, isLogEvent sid (evs.get i) = true →
    ∃ j : Fin evs.length, j.val < i.val ∧ evs.get j = Event.script_started sid

instance (sid : Nat) (evs : List Event) : Decidable (startedPrecedesLogs sid evs) := by
  unfold startedPrecedesLogs
  infer_instance

/-- A child that spawns, produces no output and exits 0. -/
def c4_behavior : ProcBehavior :=
  { spawn_ok := true, spawn_err := "", stdout_lines := [], stderr_lines := [], exit_code := 0 }

/-- One complete quiet, successful run of script 7 from the empty state. -/
def c4_run : AppState := run_python_script 7 "/tmp/a.py" "a" c4_behavior initState

/-- Claim C4 is false as stated: the `log("🚀 Starting ...")` call (app.py
line 61) runs BEFORE `socketio.emit('script_started', ...)` (line 79), so the
run's first `script_log` event precedes the `script_started` event. -/
theorem C4_counterexample : ¬ startedPrecedesLogs 7 c4_run.emitted := by
  decide

/-- Claim C4 amended: the emission order of one successfully spawned run is —
first the initial "Starting" `script_log` event, then `script_started`, then
the stream `script_log` events, then the summary `script_log` event, and the
single `script_stopped` event last.  So `script_started` precedes every log
event EXCEPT the initial "Starting" entry, and every log event of the run
precedes the run's `script_stopped` event. -/
theorem C4_amended : ∀ (sid : Nat) (p n : String) (b : ProcBehavior) (s : AppState),
    b.spawn_ok = true →
    (run_python_script sid p n b s).emitted =
      s.emitted ++
        ([Event.script_log sid (startEntry n s.clock), Event.script_started sid] ++
          (streamEntries "[OUT] " "info" b.stdout_lines (s.clock + 1)).map (Event.script_log sid) ++
          (streamEntries "[ERR] " "error" b.stderr_lines
            (s.clock + 1 + b.stdout_lines.length)).map (Event.script_log sid) ++
          [Event.script_log sid
            (summaryEntry b.exit_code (s.clock + 1 + b.stdout_lines.length + b.stderr_lines.length)),
           Event.script_stopped sid]) := by
  intro sid p n b s h
  rw [run_emitted]
  simp [runEvents, h]

/-- Witness for `C4_amended`: the quiet successful run of script 7 emits
exactly the four events, in order. -/
theorem C4_amended_witness :
    c4_behavior.spawn_ok = true ∧
    (run_python_script 7 "/tmp/a.py" "a" c4_behavior initState).emitted =
      initState.emitted ++
        ([Event.script_log 7 (startEntry "a" initState.clock), Event.script_started 7] ++
          (streamEntries "[OUT] " "info" c4_behavior.stdout_lines
            (initState.clock + 1)).map (Event.script_log 7) ++
          (streamEntries "[ERR] " "error" c4_behavior.stderr_lines
            (initState.clock + 1 + c4_behavior.stdout_lines.length)).map (Event.script_log 7) ++
          [Event.script_log 7
            (summaryEntry c4_behavior.exit_code
              (initState.clock + 1 + c4_behavior.stdout_lines.length +
                c4_behavior.stderr_lines.length)),
           Event.script_stopped 7]) :=
  ⟨rfl, C4_amended 7 "/tmp/a.py" "a" c4_behavior initState rfl⟩

/-! ### Claim C5 -/

/-- A child that prints one line ("hello") on standard output and exits 0. -/
def c5_behavior : ProcBehavior :=
  { spawn_ok := true, spawn_err := "", stdout_lines := ["hello"], stderr_lines := [],
    exit_code := 0 }

/-- One run of script 7 that reads the stdout line "hello". -/
def c5_run : AppState := run_python_script 7 "/tmp/a.py" "a" c5_behavior initState

/-- Claim C5 is false as stated: the stdout reader calls `log(f"[OUT] ...")`
WITHOUT a severity argument (app.py line 84), so the entry for a stdout line
carries the default tag `"info"`, not `"stdout"` — no entry of the run is
tagged `"stdout"` at all. -/
theorem C5_counterexample :
    ({ timestamp := 1, message := "[OUT] hello", type := "info" } : LogEntry) ∈
      c5_run.script_logs 7 ∧
    ∀ e ∈ c5_run.script_logs 7, e.type ≠ "stdout" := by
  decide

/-- Claim C5 amended: a non-empty stdout line produces an entry tagged
`"info"` whose message carries the `"[OUT] "` prefix; a non-empty stderr line
produces an entry tagged `"error"` whose message carries the `"[ERR] "`
prefix; and every entry the supervisor ever appends is tagged `"info"`,
`"error"` or `"success"`. -/
theorem C5_amended :
    (∀ (sid : Nat) (lines : List String) (s : AppState),
       (read_stdout sid lines s).script_logs sid =
         s.script_logs sid ++ streamEntries "[OUT] " "info" lines s.clock) ∧
    (∀ (sid : Nat) (lines : List String) (s : AppState),
       (read_stderr sid lines s).script_logs sid =
         s.script_logs sid ++ streamEntries "[ERR] " "error" lines s.clock) ∧
    (∀ (pre typ : String) (lines : List String) (c : Nat) (e : LogEntry),
       e ∈ streamEntries pre typ lines c →
       e.type = typ ∧ ∃ l, l ∈ lines ∧ e.message = pre ++ l) ∧
    (∀ (sid : Nat) (p n : String) (b : ProcBehavior) (s : AppState) (e : LogEntry),
       e ∈ (run_python_script sid p n b s).script_logs sid →
       e ∈ s.script_logs sid ∨ e.type = "info" ∨ e.type = "error" ∨ e.type = "success") := by
  refine ⟨?_, ?_, ?_, ?_⟩
  · intro sid lines s; exact readStream_logs_self sid "[OUT] " "info" lines s
  · intro sid lines s; exact readStream_logs_self sid "[ERR] " "error" lines s
  · intro pre typ lines c e he; exact streamEntries_mem pre typ lines c e he
  · intro sid p n b s e he
    rw [run_logs_self] at he
    rcases List.mem_append.mp he with h | h
    · exact Or.inl h
    · exact Or.inr (runLogEntries_types n b s.clock e h)

/-- Witness for `C5_amended` at a concrete input: the entry that the stdout
line "hello" produced is tagged within the allowed set. -/
theorem C5_amended_witness :
    (({ timestamp := 1, message := "[OUT] hello", type := "info" } : LogEntry) ∈
      (run_python_script 7 "/tmp/a.py" "a" c5_behavior initState).script_logs 7) ∧
    (({ timestamp := 1, message := "[OUT] hello", type := "info" } : LogEntry) ∈
        initState.script_logs 7 ∨
      ({ timestamp := 1, message := "[OUT] hello", type := "info" } : LogEntry).type = "info" ∨
      ({ timestamp := 1, message := "[OUT] hello", type := "info" } : LogEntry).type = "error" ∨
      ({ timestamp := 1, message := "[OUT] hello", type := "info" } : LogEntry).type = "success") :=
  ⟨by decide,
   C5_amended.2.2.2 7 "/tmp/a.py" "a" c5_behavior initState
     { timestamp := 1, message := "[OUT] hello", type := "info" } (by decide)⟩

/-! ### Claim C6 -/

/-- Claim C6 (confirmed): every run whose `proc.wait()` returns appends
exactly one summary entry, as the LAST entry of the run (app.py lines 94-96):
tagged `"success"` exactly when the exit code is zero, and tagged `"error"`
with a message reporting the code otherwise; and the exit code is never part
of the response to the caller of `api_run` — the response is already
`{"status": "success"}` for every accepted start, whatever the child later
exits with. -/
theorem C6_terminal_summary :
    (∀ (sid : Nat) (p n : String) (b : ProcBehavior) (s : AppState),
       b.spawn_ok = true →
       (run_python_script sid p n b s).script_logs sid =
         s.script_logs sid ++
           ([startEntry n s.clock] ++
             streamEntries "[OUT] " "info" b.stdout_lines (s.clock + 1) ++
             streamEntries "[ERR] " "error" b.stderr_lines
               (s.clock + 1 + b.stdout_lines.length)) ++
           [summaryEntry b.exit_code
             (s.clock + 1 + b.stdout_lines.length + b.stderr_lines.length)]) ∧
    (∀ (ret : Int) (c : Nat),
       ((summaryEntry ret c).type = "success" ↔ ret = 0) ∧
       (ret ≠ 0 → (summaryEntry ret c).type = "error" ∧
         (summaryEntry ret c).message = "❌ Exited with code " ++ toString ret)) ∧
    (∀ (all_scripts : List Script) (pe : String → Bool) (sid : Nat) (s : AppState) (sc : Script),
       all_scripts.find? (fun x => x.id == sid) = some sc →
       pe sc.path = true → s.running_processes sid = none →
       (api_run all_scripts pe sid s).1 = ApiResp.ok) := by
  refine ⟨?_, ?_, ?_⟩
  · intro sid p n b s h
    rw [run_logs_self]
    simp [runLogEntries, h, List.append_assoc]
  · intro ret c
    by_cases hr : ret = 0
    · subst hr
      constructor
      · simp [summaryEntry]
      · intro h; exact absurd rfl h
    · constructor
      · simp only [summaryEntry, if_neg hr]
        constructor
        · intro h; exact absurd h (by decide)
        · intro h; exact absurd h hr
      · intro _; exact ⟨by simp [summaryEntry, hr], by simp [summaryEntry, hr]⟩
  · intro all_scripts pe sid s sc hfind hpe hrun
    exact api_run_ok all_scripts pe sid s sc hfind hpe hrun

/-- Witness for `C6_terminal_summary`: at exit code 2, the summary entry is
`error`-tagged and reports the code. -/
theorem C6_witness :
    (2 : Int) ≠ 0 ∧ (summaryEntry 2 3).type = "error" ∧
      (summaryEntry 2 3).message = "❌ Exited with code " ++ toString (2 : Int) :=
  ⟨by decide, (C6_terminal_summary.2.1 2 3).2 (by decide)⟩

/-! ### Claim C7 -/

/-- Claim C7 (confirmed): for a registered run, `api_stop` performs
`proc.terminate()` first, then `proc.wait(timeout=5)`, and issues
`proc.kill()` exactly when the process has not exited within that window
(app.py lines 138-143); in both cases it removes the entry from
`running_processes` (line 144), so the identifier is absent from the
`"running"` list of `api_scripts` afterwards, and it responds success. -/
theorem C7_stop_protocol : ∀ (g : Bool) (sid : Nat) (s : AppState) (info : RunInfo),
    s.running_processes sid = some info →
    (api_stop g sid s).1 = ApiResp.ok ∧
    (api_stop g sid s).2.2 =
      [ProcAction.terminate, ProcAction.wait 5] ++ (if g then [] else [ProcAction.kill]) ∧
    ((api_stop g sid s).2.1).running_processes sid = none ∧
    list_running_mem (api_stop g sid s).2.1 sid = false := by
  intro g sid s info h
  refine ⟨by simp [api_stop, h], by simp [api_stop, h], ?_, ?_⟩
  · simp [api_stop, h, upd]
  · simp [api_stop, h, list_running_mem, upd]

/-- Witness for `C7_stop_protocol`: stopping registered script 7 when the
child ignores the graceful signal escalates to `kill` and deregisters it. -/
theorem C7_witness :
    regState.running_processes 7 =
      some { name := "a", path := "/tmp/a.py", start_time := 0 } ∧
    ((api_stop false 7 regState).1 = ApiResp.ok ∧
      (api_stop false 7 regState).2.2 =
        [ProcAction.terminate, ProcAction.wait 5] ++
          (if false then [] else [ProcAction.kill]) ∧
      ((api_stop false 7 regState).2.1).running_processes 7 = none ∧
      list_running_mem (api_stop false 7 regState).2.1 7 = false) :=
  ⟨rfl, C7_stop_protocol false 7 regState { name := "a", path := "/tmp/a.py", start_time := 0 } rfl⟩

/-! ### Claim C8 -/

/-- Claim C8 (confirmed): `api_stop` on an identifier with no entry in
`running_processes` — never started, or already retired by the supervisor's
`finally` block — responds `{"error": "not running"}` with status 400,
touches nothing and performs no process action (app.py lines 135-136); in
particular, after a completed `run_python_script` the identifier is retired
and a subsequent stop is rejected. -/
theorem C8_stop_not_running :
    (∀ (g : Bool) (sid : Nat) (s : AppState),
       s.running_processes sid = none →
       api_stop g sid s = (ApiResp.err "not running" 400, s, [])) ∧
    (∀ (sid : Nat) (p n : String) (b : ProcBehavior) (s : AppState) (g : Bool),
       api_stop g sid (run_python_script sid p n b s) =
         (ApiResp.err "not running" 400, run_python_script sid p n b s, [])) := by
  constructor
  · intro g sid s h
    simp [api_stop, h]
  · intro sid p n b s g
    simp [api_stop, run_running_self]

/-- Witness for `C8_stop_not_running`: stopping never-started script 3 in the
initial state is rejected without mutation. -/
theorem C8_witness :
    initState.running_processes 3 = none ∧
    api_stop true 3 initState = (ApiResp.err "not running" 400, initState, []) :=
  ⟨rfl, C8_stop_not_running.1 true 3 initState rfl⟩

/-! ### Claim C9 -/

lemma discover_id (hashFn : String → Int) (files : List FsFile) (sc : Script)
    (h : sc ∈ discover_python_files hashFn files) : sc.id = scriptId hashFn sc.path := by
  simp only [discover_python_files, List.mem_map, List.mem_filter] at h
  obtain ⟨f, _, heq⟩ := h
  rw [← heq]

/-- Claim C9 (confirmed): within one process lifetime the string hash is a
fixed function, so the identifier `abs(hash(str(fp))) % 10**8` (app.py line
43) is a function of the resolved path alone: any two scripts produced by any
two discovery passes that share a path share an id. -/
theorem C9_deterministic_ids : ∀ (hashFn : String → Int) (files1 files2 : List FsFile)
    (s1 s2 : Script),
    s1 ∈ discover_python_files hashFn files1 →
    s2 ∈ discover_python_files hashFn files2 →
    s1.path = s2.path → s1.id = s2.id := by
  intro hashFn files1 files2 s1 s2 h1 h2 hp
  rw [discover_id hashFn files1 s1 h1, discover_id hashFn files2 s2 h2, hp]

/-- A concrete stand-in for Python's per-process string hash. -/
def demoHash : String → Int := fun p => (p.length : Int)

/-- A walk over one monitored folder containing a single file `a.py`. -/
def demoFiles : List FsFile := [{ path := "a.py", stem := "a" }]

/-- Witness for `C9_deterministic_ids`: two discovery passes over the same
folder give `a.py` the same id. -/
theorem C9_witness :
    ({ id := 4, name := "a", path := "a.py" } : Script) ∈
      discover_python_files demoHash demoFiles ∧
    ({ id := 4, name := "a", path := "a.py" } : Script).id =
      ({ id := 4, name := "a", path := "a.py" } : Script).id :=
  ⟨by decide,
   C9_deterministic_ids demoHash demoFiles demoFiles
     { id := 4, name := "a", path := "a.py" } { id := 4, name := "a", path := "a.py" }
     (by decide) (by decide) rfl⟩

/-! ### Claim C10 -/

/-- Claim C10 (confirmed): no operation of the core removes or reorders a log
entry: a run only appends to its own buffer (`setdefault` reuses the buffer
retained from previous runs of the same identifier, app.py line 54),
`api_stop` and `api_run` never touch `script_logs`, and `api_logs` returns
the buffer itself — the concatenated history of every run, in append order. -/
theorem C10_append_only :
    (∀ (sid : Nat) (p n : String) (b : ProcBehavior) (s : AppState) (j : Nat),
       ∃ tl, (run_python_script sid p n b s).script_logs j = s.script_logs j ++ tl) ∧
    (∀ (g : Bool) (sid : Nat) (s : AppState) (j : Nat),
       ((api_stop g sid s).2.1).script_logs j = s.script_logs j) ∧
    (∀ (all_scripts : List Script) (pe : String → Bool) (sid : Nat) (s : AppState) (j : Nat),
       ((api_run all_scripts pe sid s).2.1).script_logs j = s.script_logs j) ∧
    (∀ (sid : Nat) (s : AppState), api_logs sid s = s.script_logs sid) ∧
    (∀ (sid : Nat) (p n : String) (b : ProcBehavior) (s : AppState),
       (run_python_script sid p n b s).script_logs sid =
         s.script_logs sid ++ runLogEntries n b s.clock) := by
  refine ⟨?_, ?_, ?_, ?_, ?_⟩
  · intro sid p n b s j
    by_cases h : j = sid
    · subst h
      exact ⟨runLogEntries n b s.clock, run_logs_self j p n b s⟩
    · exact ⟨[], by rw [run_logs_other sid j p n b s h, List.append_nil]⟩
  · intro g sid s j
    cases hc : s.running_processes sid <;> simp [api_stop, hc]
  · intro all_scripts pe sid s j
    cases hfind : all_scripts.find? (fun x => x.id == sid) with
    | none => simp [api_run, hfind]
    | some sc =>
      by_cases hpe : pe sc.path = false
      · simp [api_run, hfind, hpe]
      · by_cases hrun : (s.running_processes sid).isSome
        · simp [api_run, hfind, hpe, hrun]
        · simp [api_run, hfind, hpe, hrun]
  · intro sid s
    rfl
  · intro sid p n b s
    exact run_logs_self sid p n b s

end Ujala
